import Mathlib

/-
Verification of the OCR service abstraction and batch-processing contract of
the mistral-ocr command-line utility.

The development shallowly embeds the two relevant modules:
  * base.py    : the OCRResult record and BaseOCRService.process_files,
                 the derived fault-isolated batch loop;
  * mistral.py : the concrete MistralOCRService provider.

Side effects are made explicit: the ambient world (file reads, the remote
upload / signed-url / OCR endpoints) is a record of functions `Env`, file
reads that fail are `none` (Python FileNotFoundError), remote calls that fail
carry the message the SDK exception would carry, and a run of `process_file`
returns, besides the OCRResult, the trace of filesystem writes and remote API
calls it performed.  Python exceptions become `Except PyError`.
-/

/-! ## Python string and path semantics used by the source -/

/- `str.lower()` restricted to the ASCII case folding the extensions need. -/
def pyLower (s : String) : String := ⟨s.data.map Char.toLower⟩

/- `str.lstrip('.')`: drop every leading dot. -/
def pyLStripDot (s : String) : String := ⟨s.data.dropWhile (fun c => c = '.')⟩

/- Split a character list on a separator character, keeping empty groups. -/
def splitChar (c : Char) : List Char → List (List Char)
  | [] => [[]]
  | x :: xs =>
    let r := splitChar c xs
    if x = c then [] :: r
    else
      match r with
      | [] => [[x]]
      | g :: gs => (x :: g) :: gs

/- Index of the last occurrence of `c` (Python `str.rfind`), if any. -/
def lastIndexOfAux (c : Char) : List Char → Nat → Option Nat
  | [], _ => none
  | x :: xs, i =>
    match lastIndexOfAux c xs (i + 1) with
    | some j => some j
    | none => if x = c then some i else none

def lastIndexOf (c : Char) (l : List Char) : Option Nat := lastIndexOfAux c l 0

/- `pathlib.PurePath.name`: the final non-empty path component. -/
def pathName (p : String) : String :=
  ⟨((splitChar '/' p.data).filter (fun g => g ≠ ([] : List Char))).getLastD []⟩

/- `pathlib.PurePath.suffix`: the final extension of the name, dot included;
empty when the last dot is the first or last character of the name. -/
def pathSuffix (p : String) : String :=
  let name := (pathName p).data
  match lastIndexOf '.' name with
  | some i => if 0 < i ∧ i < name.length - 1 then ⟨name.drop i⟩ else ""
  | none => ""

/- `pathlib.PurePath.stem`: the name with the final extension removed. -/
def pathStem (p : String) : String :=
  let name := (pathName p).data
  match lastIndexOf '.' name with
  | some i => if 0 < i ∧ i < name.length - 1 then ⟨name.take i⟩ else ⟨name⟩
  | none => ⟨name⟩

/-! ## base64 (RFC 4648) encoding of a byte sequence, as base64.b64encode -/

def b64Alphabet : List Char :=
  "ABCDEFGHIJKLMNOPQRSTUVWXYZabcdefghijklmnopqrstuvwxyz0123456789+/".data

def b64Char (n : Nat) : Char := b64Alphabet.getD n '?'

def b64encodeChars : List Nat → List Char
  | a :: b :: c :: rest =>
    b64Char (a / 4) :: b64Char (a % 4 * 16 + b / 16) ::
      b64Char (b % 16 * 4 + c / 64) :: b64Char (c % 64) :: b64encodeChars rest
  | [a, b] => [b64Char (a / 4), b64Char (a % 4 * 16 + b / 16), b64Char (b % 16 * 4), '=']
  | [a] => [b64Char (a / 4), b64Char (a % 4 * 16), '=', '=']
  | [] => []

def b64encode (bs : List Nat) : String := ⟨b64encodeChars bs⟩

/- Python `"sep".join(strs)`. -/
def pyJoin (sep : String) : List String → String
  | [] => ""
  | [x] => x
  | x :: y :: rest => x ++ sep ++ pyJoin sep (y :: rest)

/-! ## Data model (base.py) -/

/- Values a metadata dictionary can hold in this program. -/
inductive MetaValue
  | s (v : String)
  | b (v : Bool)
  | n (v : Nat)
deriving DecidableEq, Repr

/- A Python dict preserving insertion order; first binding of a key wins. -/
def getMeta (m : List (String × MetaValue)) (k : String) : Option MetaValue :=
  (m.find? (fun kv => kv.1 == k)).map (fun kv => kv.2)

/- OCRResult (base.py): content, metadata, optional output path. -/
structure OCRResult where
  content : String
  metadata : List (String × MetaValue)
  output_path : Option String := none
deriving DecidableEq, Repr

instance {ε α : Type} [DecidableEq ε] [DecidableEq α] : DecidableEq (Except ε α) := fun a b =>
  match a, b with
  | Except.ok x, Except.ok y =>
    if h : x = y then Decidable.isTrue (by rw [h])
    else Decidable.isFalse (by intro hc; cases hc; exact h rfl)
  | Except.ok _, Except.error _ => Decidable.isFalse (by intro hc; cases hc)
  | Except.error _, Except.ok _ => Decidable.isFalse (by intro hc; cases hc)
  | Except.error x, Except.error y =>
    if h : x = y then Decidable.isTrue (by rw [h])
    else Decidable.isFalse (by intro hc; cases hc; exact h rfl)

/-! ## Python exceptions crossing the embedded code's boundaries -/

inductive PyError
  | fileNotFound (msg : String)
  | valueError (msg : String)
  | sdkError (msg : String)
deriving DecidableEq, Repr

/- Python `str(e)`: the exception's message. -/
def PyError.msg : PyError → String
  | .fileNotFound m => m
  | .valueError m => m
  | .sdkError m => m

/-! ## The remote provider's request/response shapes (mistral.py) -/

structure Page where
  markdown : String
deriving DecidableEq, Repr

structure OCRResponse where
  pages : List Page
deriving DecidableEq, Repr

structure UploadedFile where
  id : String
deriving DecidableEq, Repr

structure SignedUrl where
  url : String
deriving DecidableEq, Repr

/- The `document` payload handed to client.ocr.process. -/
inductive Document
  | image_url (url : String)
  | document_url (url : String)
deriving DecidableEq, Repr

/- The ambient world: file reads and the three remote endpoints, as
deterministic functions.  A failed read is `none` (FileNotFoundError); a
failed remote call carries the SDK exception's message. -/
structure Env where
  readFile : String → Option (List Nat)
  upload : String → List Nat → Except String UploadedFile
  get_signed_url : String → Except String SignedUrl
  ocr_process : String → Document → Bool → Except String OCRResponse

/- Filesystem effects process_file performs when output_dir is given. -/
inductive FsOp
  | mkdirP (dir : String)
  | writeText (path : String) (content : String)
  | writeJson (path : String) (data : List (String × MetaValue))
deriving DecidableEq, Repr

/- Remote calls process_file performs, in order. -/
inductive ApiCall
  | upload (file_name : String) (content : List Nat)
  | get_signed_url (file_id : String)
  | ocr_process (model : String) (document : Document) (include_image_base64 : Bool)
deriving DecidableEq, Repr

/- The outcome of one non-raising process_file call: the Result plus the
traces of the filesystem writes and remote calls it performed. -/
structure ProcOut where
  result : OCRResult
  fs_ops : List FsOp
  api_calls : List ApiCall
deriving DecidableEq, Repr

/-! ## MistralOCRService (mistral.py) -/

structure MistralOCRService where
  model : String
  api_key : String
deriving DecidableEq, Repr

/- Python string truthiness of an optional string: None and "" are falsy. -/
def pyTruthy : Option String → Bool
  | none => false
  | some s => s ≠ ""

/- `a or b` on optional strings. -/
def pyOrElse (a b : Option String) : Option String := if pyTruthy a then a else b

/- MistralOCRService.__init__: resolve api_key from the argument or the
MISTRAL_API_KEY environment variable; raise ValueError when neither is set. -/
def MistralOCRService.init (api_key : Option String)
    (env_MISTRAL_API_KEY : Option String)
    (model : String := "mistral-ocr-latest") : Except PyError MistralOCRService :=
  let key := pyOrElse api_key env_MISTRAL_API_KEY
  if pyTruthy key then
    Except.ok { model := model, api_key := key.getD "" }
  else
    Except.error (PyError.valueError
      "MISTRAL_API_KEY environment variable must be set or api_key provided")

def MistralOCRService.provider_name (_ : MistralOCRService) : String := "mistral"

def image_extensions : List String :=
  [".png", ".jpg", ".jpeg", ".avif", ".gif", ".bmp", ".tiff", ".tif"]

/- MistralOCRService._is_image_file: extension membership test. -/
def MistralOCRService.is_image (_ : MistralOCRService) (file_path : String) : Bool :=
  image_extensions.contains (pyLower (pathSuffix file_path))

/- MistralOCRService._encode_file_to_base64: read the file in binary mode and
base64-encode it; FileNotFoundError is re-raised with a clearer message. -/
def MistralOCRService.encode_file_to_base64 (_ : MistralOCRService) (env : Env)
    (file_path : String) : Except PyError String :=
  match env.readFile file_path with
  | none => Except.error (PyError.fileNotFound ("File not found: " ++ file_path))
  | some bs => Except.ok (b64encode bs)

/- MistralOCRService._extract_content_from_response:
`"\n\n".join(page.markdown for page in ocr_response.pages)`. -/
def MistralOCRService.extract_content_from_response (_ : MistralOCRService)
    (ocr_response : OCRResponse) : String :=
  pyJoin "\n\n" (ocr_response.pages.map Page.markdown)

/- MistralOCRService._create_metadata. -/
def MistralOCRService.create_metadata (svc : MistralOCRService)
    (ocr_response : OCRResponse) (source_path : String)
    (include_image_base64 : Bool) : List (String × MetaValue) :=
  let metadata : List (String × MetaValue) :=
    [("scheme", MetaValue.s "mistral_ocr"),
     ("provider", MetaValue.s svc.provider_name),
     ("model", MetaValue.s svc.model),
     ("source_file", MetaValue.s source_path),
     ("include_image_base64", MetaValue.b include_image_base64)]
  if ocr_response.pages.length > 0 then
    metadata ++ [("pages", MetaValue.n ocr_response.pages.length)]
  else
    metadata

/- The mime type computed for an image input:
`f"image/{file_path.suffix.lower().lstrip('.')}"` with the jpg fixup. -/
def mimeTypeOf (file_path : String) : String :=
  let mime_type := "image/" ++ pyLStripDot (pyLower (pathSuffix file_path))
  if mime_type = "image/jpg" then "image/jpeg" else mime_type

/- The first phase of MistralOCRService.process_file ("Determine document
type and prepare data", mistral.py lines 117 to 146): an image is inlined as
a base64 data URL; any other file is uploaded and referenced through a
signed URL.  Also yields the remote calls this phase performed. -/
def MistralOCRService.prepare_document (svc : MistralOCRService) (env : Env)
    (file_path : String) : Except PyError (Document × List ApiCall) :=
  if svc.is_image file_path then do
    let base64_data ← svc.encode_file_to_base64 env file_path
    pure (Document.image_url
            ("data:" ++ mimeTypeOf file_path ++ ";base64," ++ base64_data),
          ([] : List ApiCall))
  else do
    let contents ←
      match env.readFile file_path with
      | none =>
        Except.error (PyError.fileNotFound
          ("No such file or directory: " ++ file_path))
      | some bs => Except.ok bs
    let uploaded_file ←
      (env.upload (pathName file_path) contents).mapError PyError.sdkError
    let signed_url ←
      (env.get_signed_url uploaded_file.id).mapError PyError.sdkError
    pure (Document.document_url signed_url.url,
          [ApiCall.upload (pathName file_path) contents,
           ApiCall.get_signed_url uploaded_file.id])

/- MistralOCRService.process_file.  Returns the OCRResult together with the
trace of filesystem writes and remote calls; raising is Except.error. -/
def MistralOCRService.process_file (svc : MistralOCRService) (env : Env)
    (file_path : String) (output_dir : Option String := none)
    (include_image_base64 : Bool := false) : Except PyError ProcOut := do
  let (document, calls) ← svc.prepare_document env file_path
  let ocr_response ←
    (env.ocr_process svc.model document include_image_base64).mapError PyError.sdkError
  let content := svc.extract_content_from_response ocr_response
  let metadata := svc.create_metadata ocr_response file_path include_image_base64
  let (output_path, fs_ops) :=
    match output_dir with
    | none => (none, ([] : List FsOp))
    | some d =>
      let md_path := d ++ "/" ++ pathStem file_path ++ ".ocr.md"
      let json_path := d ++ "/" ++ pathStem file_path ++ ".ocr.json"
      (some md_path,
       [FsOp.mkdirP d, FsOp.writeText md_path content,
        FsOp.writeJson json_path metadata])
  pure { result := { content := content, metadata := metadata, output_path := output_path },
         fs_ops := fs_ops,
         api_calls := calls ++ [ApiCall.ocr_process svc.model document include_image_base64] }

/-! ## BaseOCRService.process_files (base.py): the derived batch loop -/

/- The synthetic failed Result built in the except branch. -/
def failedResult (provider_name file_path : String) (e : PyError) : OCRResult :=
  { content := "",
    metadata := [("error", MetaValue.s e.msg),
                 ("provider", MetaValue.s provider_name),
                 ("source_file", MetaValue.s file_path),
                 ("success", MetaValue.b false)],
    output_path := none }

/- The body of one loop iteration: call process_file, substituting the
synthetic failed Result when it raises. -/
def processOne (provider_name : String)
    (pf : String → Except PyError OCRResult) (file_path : String) : OCRResult :=
  match pf file_path with
  | Except.ok result => result
  | Except.error e => failedResult provider_name file_path e

/- BaseOCRService.process_files, parameterized by the single-file capability
the concrete provider supplies (here without the effect traces). -/
def process_files (provider_name : String)
    (pf : String → Except PyError OCRResult) : List String → List OCRResult
  | [] => []
  | file_path :: rest =>
    processOne provider_name pf file_path :: process_files provider_name pf rest

/- The batch operation instantiated with the Mistral provider. -/
def MistralOCRService.process_files_m (svc : MistralOCRService) (env : Env)
    (output_dir : Option String) (include_image_base64 : Bool)
    (file_paths : List String) : List OCRResult :=
  process_files svc.provider_name
    (fun fp => (svc.process_file env fp output_dir include_image_base64).map ProcOut.result)
    file_paths

/-! ## The filesystem as a store of written files (for persistence claims) -/

inductive FsFile
  | text (content : String)
  | json (data : List (String × MetaValue))
deriving DecidableEq, Repr

def FileSystem := List (String × FsFile)

def writeFs (fs : FileSystem) (p : String) (f : FsFile) : FileSystem :=
  (p, f) :: fs.filter (fun e => e.1 ≠ p)

def readFs (fs : FileSystem) (p : String) : Option FsFile :=
  (fs.find? (fun e => e.1 == p)).map (fun e => e.2)

def applyOp (fs : FileSystem) : FsOp → FileSystem
  | FsOp.mkdirP _ => fs
  | FsOp.writeText p c => writeFs fs p (FsFile.text c)
  | FsOp.writeJson p d => writeFs fs p (FsFile.json d)

def applyOps (fs : FileSystem) (ops : List FsOp) : FileSystem :=
  ops.foldl applyOp fs

/-! ## Derived predicates, spec-side formulations, and concrete fixtures -/

def wSvc : MistralOCRService := { model := "mistral-ocr-latest", api_key := "k" }

def wEnv : Env :=
  { readFile := fun p =>
      if p = "a.png" ∨ p = "d.pdf" ∨ p = "a/x.png" ∨ p = "b/x.png" then some [1, 2, 3] else none,
    upload := fun _ _ => Except.ok ⟨"fid"⟩,
    get_signed_url := fun _ => Except.ok ⟨"https://signed"⟩,
    ocr_process := fun _ _ _ => Except.ok ⟨[⟨"hello"⟩]⟩ }

def wEnvBad : Env := { wEnv with ocr_process := fun _ _ _ => Except.error "rate limited" }

def wPfFail : String → Except PyError OCRResult :=
  fun _ => Except.error (PyError.sdkError "boom")

def wOut6 : ProcOut :=
  { result :=
      { content := "hello",
        metadata := [("scheme", MetaValue.s "mistral_ocr"),
                     ("provider", MetaValue.s "mistral"),
                     ("model", MetaValue.s "mistral-ocr-latest"),
                     ("source_file", MetaValue.s "a.png"),
                     ("include_image_base64", MetaValue.b false),
                     ("pages", MetaValue.n 1)],
        output_path := some "out/a.ocr.md" },
    fs_ops := [FsOp.mkdirP "out",
               FsOp.writeText "out/a.ocr.md" "hello",
               FsOp.writeJson "out/a.ocr.json"
                 [("scheme", MetaValue.s "mistral_ocr"),
                  ("provider", MetaValue.s "mistral"),
                  ("model", MetaValue.s "mistral-ocr-latest"),
                  ("source_file", MetaValue.s "a.png"),
                  ("include_image_base64", MetaValue.b false),
                  ("pages", MetaValue.n 1)]],
    api_calls := [ApiCall.ocr_process "mistral-ocr-latest"
                    (Document.image_url "data:image/png;base64,AQID") false] }

def wOut9 : ProcOut :=
  { result :=
      { content := "hello",
        metadata := [("scheme", MetaValue.s "mistral_ocr"),
                     ("provider", MetaValue.s "mistral"),
                     ("model", MetaValue.s "mistral-ocr-latest"),
                     ("source_file", MetaValue.s "a.png"),
                     ("include_image_base64", MetaValue.b false),
                     ("pages", MetaValue.n 1)],
        output_path := none },
    fs_ops := [],
    api_calls := [ApiCall.ocr_process "mistral-ocr-latest"
                    (Document.image_url "data:image/png;base64,AQID") false] }

/- A metadata failure marker: an explicit success=false entry or any error
entry (spec section 3). -/
def hasFailureMarker (m : List (String × MetaValue)) : Bool :=
  (getMeta m "success" == some (MetaValue.b false)) || (getMeta m "error").isSome

def wFailedR : OCRResult := failedResult "mistral" "missing.png" (PyError.fileNotFound "File not found: missing.png")

def wOutPdf : ProcOut :=
  { result :=
      { content := "hello",
        metadata := [("scheme", MetaValue.s "mistral_ocr"),
                     ("provider", MetaValue.s "mistral"),
                     ("model", MetaValue.s "mistral-ocr-latest"),
                     ("source_file", MetaValue.s "d.pdf"),
                     ("include_image_base64", MetaValue.b false),
                     ("pages", MetaValue.n 1)],
        output_path := none },
    fs_ops := [],
    api_calls := [ApiCall.upload "d.pdf" [1, 2, 3],
                  ApiCall.get_signed_url "fid",
                  ApiCall.ocr_process "mistral-ocr-latest"
                    (Document.document_url "https://signed") false] }

/- Modelled from the spec's words for comparison: the concatenation of the
per-page text in page order, a blank line (two newlines) between pages. -/
def joinedPages : List Page → String
  | [] => ""
  | [p] => p.markdown
  | p :: q :: rest => p.markdown ++ "\n\n" ++ joinedPages (q :: rest)

def wOutX1 : ProcOut :=
  { result :=
      { content := "hello",
        metadata := [("scheme", MetaValue.s "mistral_ocr"),
                     ("provider", MetaValue.s "mistral"),
                     ("model", MetaValue.s "mistral-ocr-latest"),
                     ("source_file", MetaValue.s "a/x.png"),
                     ("include_image_base64", MetaValue.b false),
                     ("pages", MetaValue.n 1)],
        output_path := some "out/x.ocr.md" },
    fs_ops := [FsOp.mkdirP "out",
               FsOp.writeText "out/x.ocr.md" "hello",
               FsOp.writeJson "out/x.ocr.json"
                 [("scheme", MetaValue.s "mistral_ocr"),
                  ("provider", MetaValue.s "mistral"),
                  ("model", MetaValue.s "mistral-ocr-latest"),
                  ("source_file", MetaValue.s "a/x.png"),
                  ("include_image_base64", MetaValue.b false),
                  ("pages", MetaValue.n 1)]],
    api_calls := [ApiCall.ocr_process "mistral-ocr-latest"
                    (Document.image_url "data:image/png;base64,AQID") false] }

def wOutX2 : ProcOut :=
  { result :=
      { content := "hello",
        metadata := [("scheme", MetaValue.s "mistral_ocr"),
                     ("provider", MetaValue.s "mistral"),
                     ("model", MetaValue.s "mistral-ocr-latest"),
                     ("source_file", MetaValue.s "b/x.png"),
                     ("include_image_base64", MetaValue.b false),
                     ("pages", MetaValue.n 1)],
        output_path := some "out/x.ocr.md" },
    fs_ops := [FsOp.mkdirP "out",
               FsOp.writeText "out/x.ocr.md" "hello",
               FsOp.writeJson "out/x.ocr.json"
                 [("scheme", MetaValue.s "mistral_ocr"),
                  ("provider", MetaValue.s "mistral"),
                  ("model", MetaValue.s "mistral-ocr-latest"),
                  ("source_file", MetaValue.s "b/x.png"),
                  ("include_image_base64", MetaValue.b false),
                  ("pages", MetaValue.n 1)]],
    api_calls := [ApiCall.ocr_process "mistral-ocr-latest"
                    (Document.image_url "data:image/png;base64,AQID") false] }

/-! ## Helper lemmas -/

theorem exceptBind_ok {ε α β : Type} (a : α) (f : α → Except ε β) :
    (Except.ok a >>= f : Except ε β) = f a := rfl

theorem exceptBind_err {ε α β : Type} (e : ε) (f : α → Except ε β) :
    (Except.error e >>= f : Except ε β) = Except.error e := rfl

theorem exceptMapError_ok {ε ε₂ α : Type} (a : α) (f : ε → ε₂) :
    (Except.ok a : Except ε α).mapError f = Except.ok a := rfl

theorem exceptMapError_err {ε ε₂ α : Type} (e : ε) (f : ε → ε₂) :
    (Except.error e : Except ε α).mapError f = Except.error (f e) := rfl

/- The batch loop is positionwise: it maps the loop body over the inputs. -/
theorem process_files_eq_map (provider_name : String)
    (pf : String → Except PyError OCRResult) :
    ∀ file_paths : List String,
      process_files provider_name pf file_paths
        = file_paths.map (processOne provider_name pf)
  | [] => rfl
  | fp :: rest => by
    rw [process_files, process_files_eq_map provider_name pf rest, List.map]

theorem prepare_document_ok (svc : MistralOCRService) (env : Env) (fp : String)
    (doc : Document) (calls : List ApiCall)
    (h : svc.prepare_document env fp = Except.ok (doc, calls)) :
    (svc.is_image fp = true ∧
       ∃ bs, env.readFile fp = some bs ∧
         doc = Document.image_url ("data:" ++ mimeTypeOf fp ++ ";base64," ++ b64encode bs) ∧
         calls = []) ∨
    (svc.is_image fp = false ∧
       ∃ bs uf su, env.readFile fp = some bs ∧
         env.upload (pathName fp) bs = Except.ok uf ∧
         env.get_signed_url uf.id = Except.ok su ∧
         doc = Document.document_url su.url ∧
         calls = [ApiCall.upload (pathName fp) bs, ApiCall.get_signed_url uf.id]) := by
  unfold MistralOCRService.prepare_document at h
  by_cases himg : svc.is_image fp = true
  · left
    refine ⟨himg, ?_⟩
    rw [if_pos himg] at h
    unfold MistralOCRService.encode_file_to_base64 at h
    cases hr : env.readFile fp with
    | none => rw [hr] at h; cases h
    | some bs =>
      rw [hr] at h
      rw [exceptBind_ok] at h
      cases h
      exact ⟨bs, rfl, rfl, rfl⟩
  · right
    rw [Bool.not_eq_true] at himg
    refine ⟨himg, ?_⟩
    rw [if_neg (by rw [himg]; exact Bool.false_ne_true)] at h
    cases hr : env.readFile fp with
    | none => simp only [hr, exceptBind_err] at h; cases h
    | some bs =>
      simp only [hr, exceptBind_ok] at h
      cases hu : env.upload (pathName fp) bs with
      | error e => simp only [hu, exceptMapError_err, exceptBind_err] at h; cases h
      | ok uf =>
        simp only [hu, exceptMapError_ok, exceptBind_ok] at h
        cases hs : env.get_signed_url uf.id with
        | error e => simp only [hs, exceptMapError_err, exceptBind_err] at h; cases h
        | ok su =>
          simp only [hs, exceptMapError_ok, exceptBind_ok] at h
          cases h
          exact ⟨bs, uf, su, rfl, hu, hs, rfl, rfl⟩

theorem process_file_ok_elim (svc : MistralOCRService) (env : Env) (fp : String)
    (od : Option String) (b : Bool) (out : ProcOut)
    (h : svc.process_file env fp od b = Except.ok out) :
    ∃ doc calls resp,
      svc.prepare_document env fp = Except.ok (doc, calls) ∧
      env.ocr_process svc.model doc b = Except.ok resp ∧
      out.result.content = svc.extract_content_from_response resp ∧
      out.result.metadata = svc.create_metadata resp fp b ∧
      out.api_calls = calls ++ [ApiCall.ocr_process svc.model doc b] ∧
      ((od = none ∧ out.result.output_path = none ∧ out.fs_ops = []) ∨
       (∃ d, od = some d ∧
          out.result.output_path = some (d ++ "/" ++ pathStem fp ++ ".ocr.md") ∧
          out.fs_ops = [FsOp.mkdirP d,
            FsOp.writeText (d ++ "/" ++ pathStem fp ++ ".ocr.md") out.result.content,
            FsOp.writeJson (d ++ "/" ++ pathStem fp ++ ".ocr.json") out.result.metadata])) := by
  unfold MistralOCRService.process_file at h
  cases hp : svc.prepare_document env fp with
  | error e => simp only [hp, exceptBind_err] at h; cases h
  | ok p =>
    obtain ⟨doc, calls⟩ := p
    simp only [hp, exceptBind_ok] at h
    cases hocr : env.ocr_process svc.model doc b with
    | error e => simp only [hocr, exceptMapError_err, exceptBind_err] at h; cases h
    | ok resp =>
      simp only [hocr, exceptMapError_ok, exceptBind_ok] at h
      refine ⟨doc, calls, resp, rfl, hocr, ?_⟩
      cases od with
      | none =>
        simp only [] at h
        cases h
        exact ⟨rfl, rfl, rfl, Or.inl ⟨rfl, rfl, rfl⟩⟩
      | some d =>
        simp only [] at h
        cases h
        exact ⟨rfl, rfl, rfl, Or.inr ⟨d, rfl, rfl, rfl⟩⟩

theorem prepare_document_read_none (svc : MistralOCRService) (env : Env) (fp : String)
    (h : env.readFile fp = none) :
    ∃ m, svc.prepare_document env fp = Except.error (PyError.fileNotFound m) := by
  unfold MistralOCRService.prepare_document
  by_cases himg : svc.is_image fp = true
  · rw [if_pos himg]
    unfold MistralOCRService.encode_file_to_base64
    rw [h]
    exact ⟨"File not found: " ++ fp, rfl⟩
  · rw [if_neg himg]
    simp only [h, exceptBind_err]
    exact ⟨"No such file or directory: " ++ fp, rfl⟩

theorem prepare_document_err_read_some (svc : MistralOCRService) (env : Env)
    (fp : String) (bs : List Nat) (e : PyError)
    (hr : env.readFile fp = some bs)
    (h : svc.prepare_document env fp = Except.error e) :
    ∃ m, e = PyError.sdkError m := by
  unfold MistralOCRService.prepare_document at h
  by_cases himg : svc.is_image fp = true
  · rw [if_pos himg] at h
    unfold MistralOCRService.encode_file_to_base64 at h
    rw [hr, exceptBind_ok] at h
    cases h
  · rw [if_neg himg] at h
    simp only [hr, exceptBind_ok] at h
    cases hu : env.upload (pathName fp) bs with
    | error m =>
      simp only [hu, exceptMapError_err, exceptBind_err] at h
      cases h
      exact ⟨m, rfl⟩
    | ok uf =>
      simp only [hu, exceptMapError_ok, exceptBind_ok] at h
      cases hs : env.get_signed_url uf.id with
      | error m =>
        simp only [hs, exceptMapError_err, exceptBind_err] at h
        cases h
        exact ⟨m, rfl⟩
      | ok su =>
        simp only [hs, exceptMapError_ok, exceptBind_ok] at h
        cases h

theorem process_file_err_elim (svc : MistralOCRService) (env : Env) (fp : String)
    (od : Option String) (b : Bool) (e : PyError)
    (h : svc.process_file env fp od b = Except.error e) :
    svc.prepare_document env fp = Except.error e ∨
    (∃ doc calls m, svc.prepare_document env fp = Except.ok (doc, calls) ∧
       env.ocr_process svc.model doc b = Except.error m ∧ e = PyError.sdkError m) := by
  unfold MistralOCRService.process_file at h
  cases hp : svc.prepare_document env fp with
  | error e₂ =>
    simp only [hp, exceptBind_err] at h
    cases h
    exact Or.inl rfl
  | ok p =>
    obtain ⟨doc, calls⟩ := p
    simp only [hp, exceptBind_ok] at h
    cases hocr : env.ocr_process svc.model doc b with
    | error m =>
      simp only [hocr, exceptMapError_err, exceptBind_err] at h
      cases h
      exact Or.inr ⟨doc, calls, m, rfl, hocr, rfl⟩
    | ok resp =>
      simp only [hocr, exceptMapError_ok, exceptBind_ok] at h
      cases od with
      | none => simp only [] at h; cases h
      | some d => simp only [] at h; cases h

theorem process_file_read_fail (svc : MistralOCRService) (env : Env) (fp : String)
    (od : Option String) (b : Bool)
    (h : env.readFile fp = none) :
    ∃ m, svc.process_file env fp od b = Except.error (PyError.fileNotFound m) := by
  obtain ⟨m, hm⟩ := prepare_document_read_none svc env fp h
  refine ⟨m, ?_⟩
  unfold MistralOCRService.process_file
  simp only [hm, exceptBind_err]

/-- C1: For every list of input paths, process_files returns a list of Results
whose length equals the input list's length, with the Result at each position
produced from the input path at the same position (the output is the
positionwise image of the inputs under the loop body), so a failure on one
path never prevents processing of subsequent paths. -/
theorem process_files_one_result_per_input_in_order (provider_name : String)
    (pf : String → Except PyError OCRResult) (file_paths : List String) :
    (process_files provider_name pf file_paths).length = file_paths.length ∧
    process_files provider_name pf file_paths
      = file_paths.map (processOne provider_name pf) := by
  refine ⟨?_, process_files_eq_map provider_name pf file_paths⟩
  rw [process_files_eq_map provider_name pf file_paths]
  exact List.length_map file_paths (processOne provider_name pf)

/-- C5: Constructing the service with no explicit api_key argument and no
MISTRAL_API_KEY environment variable fails immediately with a ValueError
(the configuration error).  The constructor consumes no Env, so no file is
read or written first, and its error type is Except, so the failure is a
raised error, never a Result. -/
theorem init_without_credentials_raises_valueError (model : String) :
    MistralOCRService.init none none model
      = Except.error (PyError.valueError
          "MISTRAL_API_KEY environment variable must be set or api_key provided") := rfl

/-- C2: For every input path whose process_file call raises, process_files
substitutes at that position a synthetic failed Result with empty content, no
output_path, and metadata carrying the error description, the provider name,
the source file path, and success=false. -/
theorem process_files_substitutes_failed_result (provider_name : String)
    (pf : String → Except PyError OCRResult) (file_paths : List String)
    (i : Nat) (fp : String) (e : PyError)
    (hp : file_paths[i]? = some fp) (hf : pf fp = Except.error e) :
    (process_files provider_name pf file_paths)[i]?
      = some (failedResult provider_name fp e) ∧
    (failedResult provider_name fp e).content = "" ∧
    (failedResult provider_name fp e).output_path = none ∧
    getMeta (failedResult provider_name fp e).metadata "error"
      = some (MetaValue.s e.msg) ∧
    getMeta (failedResult provider_name fp e).metadata "provider"
      = some (MetaValue.s provider_name) ∧
    getMeta (failedResult provider_name fp e).metadata "source_file"
      = some (MetaValue.s fp) ∧
    getMeta (failedResult provider_name fp e).metadata "success"
      = some (MetaValue.b false) := by
  refine ⟨?_, rfl, rfl, rfl, rfl, rfl, rfl⟩
  rw [process_files_eq_map, List.getElem?_map, hp]
  show some (processOne provider_name pf fp) = _
  unfold processOne
  rw [hf]

/-- Witness for C2 at a concrete batch. -/
theorem process_files_substitutes_failed_result_witness :
    (process_files "mistral" wPfFail ["a.pdf"])[0]?
      = some (failedResult "mistral" "a.pdf" (PyError.sdkError "boom")) ∧
    (failedResult "mistral" "a.pdf" (PyError.sdkError "boom")).content = "" ∧
    (failedResult "mistral" "a.pdf" (PyError.sdkError "boom")).output_path = none ∧
    getMeta (failedResult "mistral" "a.pdf" (PyError.sdkError "boom")).metadata "error"
      = some (MetaValue.s (PyError.sdkError "boom").msg) ∧
    getMeta (failedResult "mistral" "a.pdf" (PyError.sdkError "boom")).metadata "provider"
      = some (MetaValue.s "mistral") ∧
    getMeta (failedResult "mistral" "a.pdf" (PyError.sdkError "boom")).metadata "source_file"
      = some (MetaValue.s "a.pdf") ∧
    getMeta (failedResult "mistral" "a.pdf" (PyError.sdkError "boom")).metadata "success"
      = some (MetaValue.b false) :=
  process_files_substitutes_failed_result "mistral" wPfFail ["a.pdf"] 0 "a.pdf"
    (PyError.sdkError "boom") (by decide) (by decide)

/-- C4: At process_file, a failed read of the source file raises the I/O
error kind (FileNotFoundError), and once the file was read, any raised
failure is the provider error kind (an SDK exception); in both cases
process_file returns Except.error, so the failure propagates to the caller
and no Result is produced. -/
theorem process_file_error_kinds (svc : MistralOCRService) (env : Env)
    (fp : String) (od : Option String) (b : Bool) :
    (env.readFile fp = none →
       ∃ m, svc.process_file env fp od b = Except.error (PyError.fileNotFound m)) ∧
    (∀ bs e, env.readFile fp = some bs →
       svc.process_file env fp od b = Except.error e →
       ∃ m, e = PyError.sdkError m) := by
  constructor
  · intro h
    exact process_file_read_fail svc env fp od b h
  · intro bs e hr h
    rcases process_file_err_elim svc env fp od b e h with hperr | ⟨_, _, m, _, _, he⟩
    · exact prepare_document_err_read_some svc env fp bs e hr hperr
    · exact ⟨m, he⟩

/-- Witness for C4: a missing file raises FileNotFoundError; a failing remote
OCR call raises the provider (SDK) error. -/
theorem process_file_error_kinds_witness :
    (∃ m, wSvc.process_file wEnv "missing.png" none false
            = Except.error (PyError.fileNotFound m)) ∧
    (∃ m, PyError.sdkError "rate limited" = PyError.sdkError m) :=
  ⟨(process_file_error_kinds wSvc wEnv "missing.png" none false).1 (by decide),
   (process_file_error_kinds wSvc wEnvBad "a.png" none false).2 [1, 2, 3]
     (PyError.sdkError "rate limited") (by decide) (by decide)⟩

/-- C6: With an output_dir supplied, a non-raising process_file creates the
output directory (with parents), writes exactly two sibling files named from
the input's stem - the text content to <stem>.ocr.md and the metadata
key/value data to <stem>.ocr.json - and returns a Result whose output_path is
the text file. -/
theorem process_file_persists_two_sibling_files (svc : MistralOCRService)
    (env : Env) (fp d : String) (b : Bool) (out : ProcOut)
    (h : svc.process_file env fp (some d) b = Except.ok out) :
    out.result.output_path = some (d ++ "/" ++ pathStem fp ++ ".ocr.md") ∧
    out.fs_ops = [FsOp.mkdirP d,
      FsOp.writeText (d ++ "/" ++ pathStem fp ++ ".ocr.md") out.result.content,
      FsOp.writeJson (d ++ "/" ++ pathStem fp ++ ".ocr.json") out.result.metadata] := by
  obtain ⟨doc, calls, resp, hp, hocr, hc, hm, ha, hod⟩ :=
    process_file_ok_elim svc env fp (some d) b out h
  rcases hod with ⟨hnone, _, _⟩ | ⟨d₂, hsome, hpath, hops⟩
  · cases hnone
  · cases hsome
    exact ⟨hpath, hops⟩

/-- Witness for C6 on a concrete image input and output directory. -/
theorem process_file_persists_two_sibling_files_witness :
    wOut6.result.output_path = some ("out" ++ "/" ++ pathStem "a.png" ++ ".ocr.md") ∧
    wOut6.fs_ops = [FsOp.mkdirP "out",
      FsOp.writeText ("out" ++ "/" ++ pathStem "a.png" ++ ".ocr.md") wOut6.result.content,
      FsOp.writeJson ("out" ++ "/" ++ pathStem "a.png" ++ ".ocr.json") wOut6.result.metadata] :=
  process_file_persists_two_sibling_files wSvc wEnv "a.png" "out" false wOut6 (by decide)

/-- C9: With a deterministic environment (the remote service and the
filesystem are functions, so equal requests get equal responses) and no
output_dir, two process_file calls on the same input with the same options
return Results with identical content and identical metadata; moreover the
first call performs no filesystem write, so it leaves the world the second
call sees unchanged. -/
theorem process_file_idempotent_without_output_dir (svc : MistralOCRService)
    (env : Env) (fp : String) (b : Bool) (out₁ out₂ : ProcOut)
    (h₁ : svc.process_file env fp none b = Except.ok out₁)
    (h₂ : svc.process_file env fp none b = Except.ok out₂) :
    out₁.result.content = out₂.result.content ∧
    out₁.result.metadata = out₂.result.metadata ∧
    out₁ = out₂ ∧ out₁.fs_ops = [] := by
  have heq : out₁ = out₂ := Except.ok.inj (h₁.symm.trans h₂)
  obtain ⟨doc, calls, resp, hp, hocr, hc, hm, ha, hod⟩ :=
    process_file_ok_elim svc env fp none b out₁ h₁
  rcases hod with ⟨_, _, hops⟩ | ⟨d, hsome, _, _⟩
  · exact ⟨by rw [heq], by rw [heq], heq, hops⟩
  · cases hsome

/-- Witness for C9 on a concrete repeated call. -/
theorem process_file_idempotent_without_output_dir_witness :
    wOut9.result.content = wOut9.result.content ∧
    wOut9.result.metadata = wOut9.result.metadata ∧
    wOut9 = wOut9 ∧ wOut9.fs_ops = [] :=
  process_file_idempotent_without_output_dir wSvc wEnv "a.png" false wOut9 wOut9
    (by decide) (by decide)

theorem create_metadata_no_marker (svc : MistralOCRService) (resp : OCRResponse)
    (fp : String) (b : Bool) :
    getMeta (svc.create_metadata resp fp b) "error" = none ∧
    getMeta (svc.create_metadata resp fp b) "success" = none := by
  unfold MistralOCRService.create_metadata
  by_cases hp : resp.pages.length > 0
  · rw [if_pos hp]
    constructor <;> rfl
  · rw [if_neg hp]
    constructor <;> rfl

theorem hasFailureMarker_false_of_none (m : List (String × MetaValue))
    (he : getMeta m "error" = none) (hs : getMeta m "success" = none) :
    hasFailureMarker m = false := by
  unfold hasFailureMarker
  rw [he, hs]
  rfl

/-- C3: Every Result produced by a non-raising process_file call has metadata
with no error key and no success key, hence no failure marker; and every
Result in a process_files batch satisfies the invariant: a failure marker
forces empty content and an absent output_path, and a marker-free Result has
no error key and no false success marker. -/
theorem results_respect_failure_marker_invariant :
    (∀ (svc : MistralOCRService) (env : Env) (fp : String) (od : Option String)
       (b : Bool) (out : ProcOut),
       svc.process_file env fp od b = Except.ok out →
         hasFailureMarker out.result.metadata = false ∧
         getMeta out.result.metadata "error" = none ∧
         getMeta out.result.metadata "success" = none) ∧
    (∀ (svc : MistralOCRService) (env : Env) (od : Option String) (b : Bool)
       (paths : List String) (r : OCRResult),
       r ∈ svc.process_files_m env od b paths →
         (hasFailureMarker r.metadata = true → r.content = "" ∧ r.output_path = none) ∧
         (hasFailureMarker r.metadata = false →
            getMeta r.metadata "error" = none ∧
            getMeta r.metadata "success" ≠ some (MetaValue.b false))) := by
  have hok : ∀ (svc : MistralOCRService) (env : Env) (fp : String)
      (od : Option String) (b : Bool) (out : ProcOut),
      svc.process_file env fp od b = Except.ok out →
        hasFailureMarker out.result.metadata = false ∧
        getMeta out.result.metadata "error" = none ∧
        getMeta out.result.metadata "success" = none := by
    intro svc env fp od b out h
    obtain ⟨doc, calls, resp, hp, hocr, hc, hm, ha, hod⟩ :=
      process_file_ok_elim svc env fp od b out h
    obtain ⟨he, hs⟩ := create_metadata_no_marker svc resp fp b
    rw [hm]
    exact ⟨hasFailureMarker_false_of_none _ he hs, he, hs⟩
  refine ⟨hok, ?_⟩
  intro svc env od b paths r hr
  unfold MistralOCRService.process_files_m at hr
  rw [process_files_eq_map] at hr
  obtain ⟨fp, hfp, heq⟩ := List.mem_map.mp hr
  unfold processOne at heq
  cases hpf : svc.process_file env fp od b with
  | ok out =>
    simp only [hpf, Except.map] at heq
    obtain ⟨hmark, he, hs⟩ := hok svc env fp od b out hpf
    cases heq
    constructor
    · intro ht
      rw [hmark] at ht
      cases ht
    · intro _
      refine ⟨he, ?_⟩
      rw [hs]
      intro hc
      cases hc
  | error e =>
    simp only [hpf, Except.map] at heq
    cases heq
    constructor
    · intro _
      exact ⟨rfl, rfl⟩
    · intro hfalse
      cases hfalse

/-- Witness for C3: a successful concrete call carries no marker, and both
Results of a concrete partly-failing batch satisfy the invariant. -/
theorem results_respect_failure_marker_invariant_witness :
    (hasFailureMarker wOut9.result.metadata = false ∧
     getMeta wOut9.result.metadata "error" = none ∧
     getMeta wOut9.result.metadata "success" = none) ∧
    ((hasFailureMarker wFailedR.metadata = true → wFailedR.content = "" ∧ wFailedR.output_path = none) ∧
     (hasFailureMarker wFailedR.metadata = false →
        getMeta wFailedR.metadata "error" = none ∧
        getMeta wFailedR.metadata "success" ≠ some (MetaValue.b false))) :=
  ⟨results_respect_failure_marker_invariant.1 wSvc wEnv "a.png" none false wOut9 (by decide),
   results_respect_failure_marker_invariant.2 wSvc wEnv none false
     ["a.png", "missing.png"] wFailedR (by decide)⟩

/-- C7: process_file classifies the input as image versus document solely by
its extension (is_image depends only on the path's suffix), and the request
payload follows the classification: images are submitted inline as a base64
data URL of the file bytes in a single OCR call, other files are uploaded,
their signed URL fetched, and the OCR call references that URL. -/
theorem payload_built_by_extension (svc : MistralOCRService) (env : Env)
    (fp : String) (od : Option String) (b : Bool) (out : ProcOut) :
    (∀ p q, pathSuffix p = pathSuffix q → svc.is_image p = svc.is_image q) ∧
    (svc.process_file env fp od b = Except.ok out →
      ((svc.is_image fp = true →
          ∃ bs, env.readFile fp = some bs ∧
            out.api_calls = [ApiCall.ocr_process svc.model
              (Document.image_url
                ("data:" ++ mimeTypeOf fp ++ ";base64," ++ b64encode bs)) b]) ∧
       (svc.is_image fp = false →
          ∃ bs uf su, env.readFile fp = some bs ∧
            env.upload (pathName fp) bs = Except.ok uf ∧
            env.get_signed_url uf.id = Except.ok su ∧
            out.api_calls = [ApiCall.upload (pathName fp) bs,
              ApiCall.get_signed_url uf.id,
              ApiCall.ocr_process svc.model (Document.document_url su.url) b]))) := by
  constructor
  · intro p q hpq
    unfold MistralOCRService.is_image
    rw [hpq]
  · intro h
    obtain ⟨doc, calls, resp, hp, hocr, hc, hm, ha, hod⟩ :=
      process_file_ok_elim svc env fp od b out h
    rcases prepare_document_ok svc env fp doc calls hp with
      ⟨himg, bs, hr, hdoc, hcalls⟩ | ⟨himg, bs, uf, su, hr, hu, hs, hdoc, hcalls⟩
    · constructor
      · intro _
        refine ⟨bs, hr, ?_⟩
        rw [ha, hcalls, hdoc]
        rfl
      · intro hfalse
        rw [himg] at hfalse
        cases hfalse
    · constructor
      · intro htrue
        rw [himg] at htrue
        cases htrue
      · intro _
        refine ⟨bs, uf, su, hr, hu, hs, ?_⟩
        rw [ha, hcalls, hdoc]
        rfl

/-- Witness for C7: equal suffixes classify equally, a concrete image run
produces the inline data-URL call, and a concrete pdf run produces the
upload, signed-url, referencing-call sequence. -/
theorem payload_built_by_extension_witness :
    wSvc.is_image "a.png" = wSvc.is_image "b.png" ∧
    (∃ bs, wEnv.readFile "a.png" = some bs ∧
       wOut9.api_calls = [ApiCall.ocr_process wSvc.model
         (Document.image_url
           ("data:" ++ mimeTypeOf "a.png" ++ ";base64," ++ b64encode bs)) false]) ∧
    (∃ bs uf su, wEnv.readFile "d.pdf" = some bs ∧
       wEnv.upload (pathName "d.pdf") bs = Except.ok uf ∧
       wEnv.get_signed_url uf.id = Except.ok su ∧
       wOutPdf.api_calls = [ApiCall.upload (pathName "d.pdf") bs,
         ApiCall.get_signed_url uf.id,
         ApiCall.ocr_process wSvc.model (Document.document_url su.url) false]) :=
  ⟨(payload_built_by_extension wSvc wEnv "a.png" none false wOut9).1 "a.png" "b.png" (by decide),
   ((payload_built_by_extension wSvc wEnv "a.png" none false wOut9).2 (by decide)).1 (by decide),
   ((payload_built_by_extension wSvc wEnv "d.pdf" none false wOutPdf).2 (by decide)).2 (by decide)⟩

theorem extract_eq_joinedPages (svc : MistralOCRService) :
    ∀ pages : List Page,
      svc.extract_content_from_response ⟨pages⟩ = joinedPages pages
  | [] => rfl
  | [p] => rfl
  | p :: q :: rest => by
    have ih := extract_eq_joinedPages svc (q :: rest)
    unfold MistralOCRService.extract_content_from_response at ih ⊢
    simp only [List.map] at ih ⊢
    rw [joinedPages, pyJoin, ← ih]

/-- C8: The Result's content is the per-page markdown of all pages, in page
order, joined with a blank-line separator; an empty page list yields the
empty string.  The third part ties this to process_file: any non-raising run
used the response of the single OCR call, whose pages its content joins. -/
theorem content_is_blankline_joined_pages (svc : MistralOCRService) :
    (∀ resp : OCRResponse,
       svc.extract_content_from_response resp = joinedPages resp.pages) ∧
    svc.extract_content_from_response ⟨[]⟩ = "" ∧
    (∀ (env : Env) (fp : String) (od : Option String) (b : Bool) (out : ProcOut),
       svc.process_file env fp od b = Except.ok out →
         ∃ doc resp, env.ocr_process svc.model doc b = Except.ok resp ∧
           out.result.content = joinedPages resp.pages) := by
  refine ⟨fun resp => ?_, rfl, fun env fp od b out h => ?_⟩
  · cases resp with
    | mk pages => exact extract_eq_joinedPages svc pages
  · obtain ⟨doc, calls, resp, hp, hocr, hc, hm, ha, hod⟩ :=
      process_file_ok_elim svc env fp od b out h
    refine ⟨doc, resp, hocr, ?_⟩
    rw [hc]
    cases resp with
    | mk pages => exact extract_eq_joinedPages svc pages

/-- Witness for C8 at a concrete run with a concrete paged response. -/
theorem content_is_blankline_joined_pages_witness :
    ∃ doc resp, wEnv.ocr_process wSvc.model doc false = Except.ok resp ∧
      wOut9.result.content = joinedPages resp.pages :=
  (content_is_blankline_joined_pages wSvc).2.2 wEnv "a.png" none false wOut9 (by decide)

theorem md_json_ne (x : String) : (x ++ ".ocr.json") ≠ (x ++ ".ocr.md") := by
  intro h
  have hl := congrArg String.length h
  rw [String.length_append, String.length_append] at hl
  have h9 : (".ocr.json" : String).length = 9 := rfl
  have h7 : (".ocr.md" : String).length = 7 := rfl
  rw [h9, h7] at hl
  omega

theorem readFs_after_persist (fs : FileSystem) (d mdp jp c : String)
    (m : List (String × MetaValue)) (hne : jp ≠ mdp) :
    readFs (applyOps fs [FsOp.mkdirP d, FsOp.writeText mdp c, FsOp.writeJson jp m]) mdp
      = some (FsFile.text c) := by
  unfold applyOps
  simp only [List.foldl]
  unfold applyOp readFs writeFs
  have h1 : (jp == mdp) = false := beq_eq_false_iff_ne.mpr hne
  have h2 : (decide (mdp ≠ jp)) = true := decide_eq_true (Ne.symm hne)
  have h3 : (mdp == mdp) = true := beq_self_eq_true mdp
  simp only [List.filter, List.find?, h1, h2, h3]
  rfl

/-- C10: The persisted output paths depend only on output_dir and the input's
stem: they are output_dir/<stem>.ocr.md and output_dir/<stem>.ocr.json, the
original extension discarded.  Hence two distinct inputs with equal stems and
the same output_dir yield the same output_path, and running the second after
the first leaves the shared text file holding the second run's content (the
second write silently overwrites the first). -/
theorem equal_stems_collide_and_overwrite (svc : MistralOCRService)
    (env₁ env₂ : Env) (d fp₁ fp₂ : String) (b₁ b₂ : Bool) (out₁ out₂ : ProcOut)
    (fs : FileSystem)
    (_hne : fp₁ ≠ fp₂) (hstem : pathStem fp₁ = pathStem fp₂)
    (h₁ : svc.process_file env₁ fp₁ (some d) b₁ = Except.ok out₁)
    (h₂ : svc.process_file env₂ fp₂ (some d) b₂ = Except.ok out₂) :
    out₁.result.output_path = some (d ++ "/" ++ pathStem fp₁ ++ ".ocr.md") ∧
    out₂.result.output_path = out₁.result.output_path ∧
    readFs (applyOps (applyOps fs out₁.fs_ops) out₂.fs_ops)
        (d ++ "/" ++ pathStem fp₁ ++ ".ocr.md")
      = some (FsFile.text out₂.result.content) := by
  obtain ⟨doc₁, calls₁, resp₁, hp₁, hocr₁, hc₁, hm₁, ha₁, hod₁⟩ :=
    process_file_ok_elim svc env₁ fp₁ (some d) b₁ out₁ h₁
  obtain ⟨doc₂, calls₂, resp₂, hp₂, hocr₂, hc₂, hm₂, ha₂, hod₂⟩ :=
    process_file_ok_elim svc env₂ fp₂ (some d) b₂ out₂ h₂
  rcases hod₁ with ⟨hnone, _, _⟩ | ⟨d₁, hsome₁, hpath₁, hops₁⟩
  · cases hnone
  rcases hod₂ with ⟨hnone, _, _⟩ | ⟨d₂, hsome₂, hpath₂, hops₂⟩
  · cases hnone
  cases hsome₁
  cases hsome₂
  rw [hstem] at hpath₁
  refine ⟨by rw [hpath₁, hstem], by rw [hpath₂, hpath₁], ?_⟩
  rw [hops₂, hstem]
  exact readFs_after_persist (applyOps fs out₁.fs_ops) d
    (d ++ "/" ++ pathStem fp₂ ++ ".ocr.md") (d ++ "/" ++ pathStem fp₂ ++ ".ocr.json")
    out₂.result.content out₂.result.metadata (md_json_ne (d ++ "/" ++ pathStem fp₂))

/-- Witness for C10: two concrete inputs with equal stems written to the same
directory collide on the same output files; the second content survives. -/
theorem equal_stems_collide_and_overwrite_witness :
    wOutX1.result.output_path = some ("out" ++ "/" ++ pathStem "a/x.png" ++ ".ocr.md") ∧
    wOutX2.result.output_path = wOutX1.result.output_path ∧
    readFs (applyOps (applyOps [] wOutX1.fs_ops) wOutX2.fs_ops)
        ("out" ++ "/" ++ pathStem "a/x.png" ++ ".ocr.md")
      = some (FsFile.text wOutX2.result.content) :=
  equal_stems_collide_and_overwrite wSvc wEnv wEnv "out" "a/x.png" "b/x.png"
    false false wOutX1 wOutX2 [] (by decide) (by decide) (by decide) (by decide)
